import Mathlib

/-!
A shallow embedding of the media streaming session engine of this repository:
the `StreamingDelegate` (prepareStream / startStream / handleStreamRequest /
stopStream, in `platform.ts`), the `FfmpegProcess` supervisor (exit handling
and `stopProcess`, in `plugin/utils/ffmpeg-new.ts`) and the inactivity socket
of `FfmpegStreamingProcess` (`plugin/utils/ffmpeg-stream.ts`).

State is passed explicitly; the observable side effects of a call (logging,
callback invocations, socket operations, process operations, registry
operations) are recorded in a trace of events, in the order the source
performs them.  JavaScript `Map` registries are modelled as association
lists keyed by the session identifier string; a `Map.get` is `mapGet`,
`Map.delete` is `mapDelete` (removing every binding of the key) and
`Map.set` is `mapSet` (the most recent binding shadows older ones).
-/

/-- Lookup in a registry: the first binding of the key, as `Map.get`. -/
def mapGet {α : Type} (m : List (String × α)) (k : String) : Option α :=
  match m with
  | [] => none
  | p :: t => if p.1 = k then some p.2 else mapGet t k

/-- Removal from a registry, as `Map.delete`. -/
def mapDelete {α : Type} (m : List (String × α)) (k : String) : List (String × α) :=
  m.filter (fun p => decide (p.1 ≠ k))

/-- Insertion into a registry, as `Map.set`: the new binding shadows any older one. -/
def mapSet {α : Type} (m : List (String × α)) (k : String) (v : α) : List (String × α) :=
  (k, v) :: m

theorem mapGet_delete_self {α : Type} (m : List (String × α)) (k : String) :
    mapGet (mapDelete m k) k = none := by
  induction m with
  | nil => rfl
  | cons p t ih =>
    by_cases h : p.1 = k
    · simp [mapDelete, h] at ih ⊢
      simpa [mapDelete] using ih
    · simp [mapDelete, h] at ih ⊢
      simpa [mapGet, mapDelete, h] using ih

theorem mapDelete_of_get_none {α : Type} (m : List (String × α)) (k : String)
    (h : mapGet m k = none) : mapDelete m k = m := by
  induction m with
  | nil => rfl
  | cons p t ih =>
    by_cases hp : p.1 = k
    · simp [mapGet, hp] at h
    · simp [mapGet, hp] at h
      simp [mapDelete, hp] at ih ⊢
      exact ih h

theorem mapGet_set_self {α : Type} (m : List (String × α)) (k : String) (v : α) :
    mapGet (mapSet m k v) k = some v := by
  simp [mapGet, mapSet]

/-! ## Observable events of the streaming delegate -/

/-- One observable action of the streaming delegate, in source order. -/
inductive Ev where
  | logDebug (m : String)
  | logError (m : String)
  | logWarn (m : String)
  | logInfo (m : String)
  | cbOk
  | cbErr (m : String)
  | socketCreate (ipv6 : Bool)
  | socketBind (port : Nat)
  | createVideoProcess
  | startVideoProcess
  | pipeFeed
  | createTalkbackStream
  | createReturnProcess
  | startReturnProcess
  | pipeReturnToTalkback
  | ongoingSet (id : String)
  | pendingDelete (id : String)
  | ongoingDelete (id : String)
  | clearTimer
  | stopTalkback
  | unpipeReturn
  | stopReturnProc
  | stopVideoProc
  | stopAudioProc
  | closeSocket
  | releaseLivestream
  | forceStop (id : String)
  | stopRequest (id : String)
  deriving DecidableEq

/-- Events that invoke the stream-request callback handed to `startStream` /
`handleStreamRequest`. -/
def isCbEv : Ev → Bool
  | Ev.cbOk => true
  | Ev.cbErr _ => true
  | _ => false

/-- Number of callback invocations recorded in a trace. -/
def countCb (tr : List Ev) : Nat := (tr.filter isCbEv).length

/-- Resource-release actions performed by `stopStream` teardown. -/
def isReleaseEv : Ev → Bool
  | Ev.clearTimer => true
  | Ev.stopTalkback => true
  | Ev.unpipeReturn => true
  | Ev.stopReturnProc => true
  | Ev.stopVideoProc => true
  | Ev.stopAudioProc => true
  | Ev.closeSocket => true
  | Ev.releaseLivestream => true
  | _ => false

/-- Observable side effects of session startup: socket creation and binding,
process construction, spawning, piping, and activation in the registry. -/
def isStartSideEffect : Ev → Bool
  | Ev.socketCreate _ => true
  | Ev.socketBind _ => true
  | Ev.createVideoProcess => true
  | Ev.startVideoProcess => true
  | Ev.pipeFeed => true
  | Ev.createTalkbackStream => true
  | Ev.createReturnProcess => true
  | Ev.startReturnProcess => true
  | Ev.pipeReturnToTalkback => true
  | Ev.ongoingSet _ => true
  | _ => false

/-! ## Data model (`SessionInfo`, `ActiveSession` in platform.ts) -/

/-- `SessionInfo` of platform.ts: the pending session record built by
`prepareStream`.  SRTP secrets are byte lists; `videoSRTP`/`audioSRTP`
hold key and salt concatenated, as in the source. -/
structure SessionInfo where
  address : String
  ipv6 : Bool
  videoPort : Nat
  videoReturnPort : Nat
  videoCryptoSuite : Nat
  videoSRTP : List Nat
  videoSSRC : Nat
  audioPort : Nat
  audioReturnPort : Nat
  audioCryptoSuite : Nat
  audioSRTP : List Nat
  audioSSRC : Nat
  deriving DecidableEq

/-- `ActiveSession` of platform.ts.  Each optional field of the source record
is modelled by whether the resource handle is present. -/
structure ActiveSession where
  videoProcess : Bool
  audioProcess : Bool
  returnProcess : Bool
  timeout : Bool
  socket : Bool
  talkbackStream : Bool
  deriving DecidableEq

/-- The two session registries of the `StreamingDelegate`. -/
structure DState where
  pendingSessions : List (String × SessionInfo)
  ongoingSessions : List (String × ActiveSession)
  deriving DecidableEq

/-- Which of the guarded teardown calls of `stopStream` throw when invoked.
Each flag stands for an exception raised by the corresponding call. -/
structure StopFailures where
  talkbackThrows : Bool
  unpipeThrows : Bool
  returnStopThrows : Bool
  videoStopThrows : Bool
  audioStopThrows : Bool
  socketCloseThrows : Bool
  livestreamThrows : Bool
  deriving DecidableEq

/-! Log message constants (interpolated data of the source messages is kept
out of the model text). -/

def msgFindErr : String := "Error finding session information"
def msgVideoConfig : String := "VIDEOCONFIG"
def msgTypeErr : String := "TypeError: cannot read property of undefined session info"
def msgCatch : String := "Stream could not be started"
def msgLiveErr : String := "Unable to start the livestream"
def msgUnsupportedCodec : String := "An unsupported audio codec was requested. Audio streaming will be omitted."
def msgStopping : String := "Stopping session with id"
def msgNoSession : String := "No session to stop."
def msgStopped : String := "Stopped video stream."
def msgErrReturn : String := "Error occurred terminating returnAudio FFmpeg process"
def msgErrVideo : String := "Error occurred terminating video FFmpeg process"
def msgErrAudio : String := "Error occurred terminating audio FFmpeg process"
def msgErrSocket : String := "Error occurred closing socket"
def msgErrLive : String := "Error occurred terminating Eufy Station livestream"
def msgPendingDeleted : String := "pendingSession has been deleted. Add it to ongoingSession and end it immediately."
def msgInactive : String := "Video stream appears to be inactive for 5 seconds. Stopping stream."
def msgReconfigure : String := "Received request to reconfigure (Ignored)"
def msgStopRequest : String := "Receive Apple HK Stop request"

/-! ## stopStream (platform.ts)

The body of the second `try` block of `stopStream`:
`session.talkbackStream?.stopTalkbackStream()`, then
`session.returnProcess?.stdout?.unpipe()`, then
`session.returnProcess?.stop()`.  The three calls share one `try`, so the
first one that throws aborts the rest of the block; the `catch` logs and
swallows the error.  `stdout` is modelled as present whenever the return
process handle is present. -/

def stopReturnBlockRest (returnProc fUnpipe fReturnStop : Bool) : List Ev :=
  if returnProc then
    if fUnpipe then [Ev.logError msgErrReturn]
    else Ev.unpipeReturn ::
      (if fReturnStop then [Ev.logError msgErrReturn] else [Ev.stopReturnProc])
  else []

def stopReturnBlock (talkback returnProc fTalkback fUnpipe fReturnStop : Bool) : List Ev :=
  if talkback then
    if fTalkback then [Ev.logError msgErrReturn]
    else Ev.stopTalkback :: stopReturnBlockRest returnProc fUnpipe fReturnStop
  else stopReturnBlockRest returnProc fUnpipe fReturnStop

/-- `try { session.videoProcess?.stop(); } catch ...` -/
def stopVideoBlock (videoProc fVideo : Bool) : List Ev :=
  if videoProc then
    if fVideo then [Ev.logError msgErrVideo] else [Ev.stopVideoProc]
  else []

/-- `try { session.audioProcess?.stop(); } catch ...` -/
def stopAudioBlock (audioProc fAudio : Bool) : List Ev :=
  if audioProc then
    if fAudio then [Ev.logError msgErrAudio] else [Ev.stopAudioProc]
  else []

/-- `try { session.socket?.close(); } catch ...` -/
def closeSocketBlock (socket fSocket : Bool) : List Ev :=
  if socket then
    if fSocket then [Ev.logError msgErrSocket] else [Ev.closeSocket]
  else []

/-- `try { if (!is_rtsp_ready(...)) stopLocalLiveStream(); } catch ...` -/
def releaseFeedBlock (rtsp fLive : Bool) : List Ev :=
  if rtsp then []
  else if fLive then [Ev.logError msgErrLive] else [Ev.releaseLivestream]

/-- The resource-release portion of `stopStream` on a found active session:
timer cancellation followed by the five guarded blocks, in source order. -/
def releaseTrace (rtsp : Bool) (s : ActiveSession) (f : StopFailures) : List Ev :=
  (if s.timeout then [Ev.clearTimer] else []) ++
  stopReturnBlock s.talkbackStream s.returnProcess f.talkbackThrows f.unpipeThrows f.returnStopThrows ++
  stopVideoBlock s.videoProcess f.videoStopThrows ++
  stopAudioBlock s.audioProcess f.audioStopThrows ++
  closeSocketBlock s.socket f.socketCloseThrows ++
  releaseFeedBlock rtsp f.livestreamThrows

/-- `StreamingDelegate.stopStream` of platform.ts: delete the pending entry if
present, then, if an active session exists, run the guarded teardown blocks
and finally delete the session from the active registry; otherwise log that
there is no session to stop.  `rtsp` is the result of `is_rtsp_ready`. -/
def stopStream (rtsp : Bool) (f : StopFailures) (st : DState) (id : String) :
    DState × List Ev :=
  let pp := (mapGet st.pendingSessions id).isSome
  let pend := if pp then mapDelete st.pendingSessions id else st.pendingSessions
  let pdTr := if pp then [Ev.pendingDelete id] else []
  match mapGet st.ongoingSessions id with
  | some s =>
    (⟨pend, mapDelete st.ongoingSessions id⟩,
      Ev.logDebug msgStopping :: pdTr ++ releaseTrace rtsp s f ++
        [Ev.ongoingDelete id, Ev.logInfo msgStopped])
  | none =>
    (⟨pend, st.ongoingSessions⟩,
      Ev.logDebug msgStopping :: pdTr ++ [Ev.logDebug msgNoSession])

/-! ## startStream (platform.ts)

`startStream` is an `async` method; its synchronous-with-awaits body is
modelled as one run, with the external collaborators it awaits supplied by a
`StartEnv`.  The source looks the session up with `pendingSessions.get` and,
when the lookup fails, logs, invokes the callback with an error and — with no
`return` statement — falls through into the `try` block, where evaluating
`sessionInfo!.ipv6` on the missing record throws a `TypeError` that the
`catch` turns into a second callback invocation plus a (no-op) pending
delete. -/

/-- Audio codec requested by the viewer (`request.audio.codec`). -/
inductive AudioCodec where
  | opus
  | aacEld
  | other
  deriving DecidableEq

/-- The fields of the HAP `StartStreamRequest` the engine reads. -/
structure StartRequest where
  sessionID : String
  audioCodec : AudioCodec
  rtcpInterval : Nat
  deriving DecidableEq

/-- External collaborators and configuration read during `startStream`:
`rtsp` is `is_rtsp_ready`, `livestreamOk` is whether
`localLivestreamManager.getLocalLivestream()` resolves, `videoConfigAudio`
is `videoConfig.audio`, `talkback` is `cameraConfig.talkback`, and
`interleavedStop` schedules a `stopStream` for the same identifier on the
suspension point just before the final pending-session re-check (the source
comment: check if the pendingSession has been stopped before it was
successfully started). -/
structure StartEnv where
  rtsp : Bool
  livestreamOk : Bool
  videoConfigAudio : Bool
  talkback : Bool
  interleavedStop : Bool
  stopFailures : StopFailures
  deriving DecidableEq

/-- The head of the `startStream` trace: the unknown-session error path (with
no return) followed by the VIDEOCONFIG debug line. -/
def startHead (known : Bool) : List Ev :=
  (if known then [] else [Ev.logError msgFindErr, Ev.cbErr msgFindErr]) ++
  [Ev.logDebug msgVideoConfig]

/-- The unsupported-audio-codec warning of `startStream`. -/
def warnSeg (useAudio videoConfigAudio : Bool) : List Ev :=
  if !useAudio && videoConfigAudio then [Ev.logWarn msgUnsupportedCodec] else []

/-- Construction and spawn of the primary video process, the feed piping for
a local (non-RTSP) source, and the optional talkback leg, in source order. -/
def spawnSeg (hasFeed talkback : Bool) : List Ev :=
  [Ev.createVideoProcess, Ev.startVideoProcess] ++
  (if hasFeed then [Ev.pipeFeed] else []) ++
  (if talkback then
    [Ev.createTalkbackStream, Ev.createReturnProcess, Ev.startReturnProcess,
      Ev.pipeReturnToTalkback] else [])

/-- The tail of a successful `startStream` run: spawn the processes, possibly
suffer an interleaved `stopStream`, then re-check the pending registry and
either transfer the session to the active registry (set, then delete pending)
or — if the pending entry vanished — activate it and tear it down at once. -/
def startFinish (env : StartEnv) (req : StartRequest) (st : DState)
    (pre : List Ev) (hasFeed : Bool) : DState × List Ev :=
  let active : ActiveSession :=
    { videoProcess := true, audioProcess := false, returnProcess := env.talkback,
      timeout := false, socket := true, talkbackStream := env.talkback }
  let tr1 := pre ++ spawnSeg hasFeed env.talkback
  let stMid := if env.interleavedStop then
    (stopStream env.rtsp env.stopFailures st req.sessionID).1 else st
  let trMid := if env.interleavedStop then
    (stopStream env.rtsp env.stopFailures st req.sessionID).2 else []
  match mapGet stMid.pendingSessions req.sessionID with
  | some _ =>
    (⟨mapDelete stMid.pendingSessions req.sessionID,
      mapSet stMid.ongoingSessions req.sessionID active⟩,
      tr1 ++ trMid ++ [Ev.ongoingSet req.sessionID, Ev.pendingDelete req.sessionID])
  | none =>
    let stA : DState :=
      ⟨stMid.pendingSessions, mapSet stMid.ongoingSessions req.sessionID active⟩
    let stop2 := stopStream env.rtsp env.stopFailures stA req.sessionID
    (stop2.1,
      tr1 ++ trMid ++ [Ev.ongoingSet req.sessionID, Ev.logInfo msgPendingDeleted] ++ stop2.2)

/-- The prefix of every `startStream` run that finds its pending entry: the
VIDEOCONFIG debug line, then socket creation and bind, then the possible
unsupported-codec warning — all before any process is constructed. -/
def startPre (env : StartEnv) (req : StartRequest) (info : SessionInfo) : List Ev :=
  startHead true ++
  [Ev.socketCreate info.ipv6, Ev.socketBind info.videoReturnPort] ++
  warnSeg (decide (req.audioCodec = AudioCodec.opus ∨ req.audioCodec = AudioCodec.aacEld) &&
    env.videoConfigAudio) env.videoConfigAudio

/-- `StreamingDelegate.startStream` of platform.ts.  Both exits through the
catch block record the unconditional `pendingSessions.delete` of the source
as a trailing `Ev.pendingDelete` (on the unknown-session path the delete is a
no-op on the registry; on the local-feed-failure path it removes the entry). -/
def startStream (env : StartEnv) (req : StartRequest) (st : DState) :
    DState × List Ev :=
  match mapGet st.pendingSessions req.sessionID with
  | none =>
    (⟨mapDelete st.pendingSessions req.sessionID, st.ongoingSessions⟩,
      startHead false ++ [Ev.logError msgCatch, Ev.cbErr msgTypeErr,
        Ev.pendingDelete req.sessionID])
  | some info =>
    let pre := startPre env req info
    if env.rtsp then
      startFinish env req st pre false
    else if env.livestreamOk then
      startFinish env req st pre true
    else
      (⟨mapDelete st.pendingSessions req.sessionID, st.ongoingSessions⟩,
        pre ++ [Ev.logError msgCatch, Ev.cbErr msgLiveErr,
          Ev.pendingDelete req.sessionID])

/-! ## handleStreamRequest (platform.ts) -/

/-- `StreamRequestTypes` of HAP: START, RECONFIGURE, STOP. -/
inductive StreamRequestType where
  | start
  | reconfigure
  | stop
  deriving DecidableEq

/-- `StreamingDelegate.handleStreamRequest`: START delegates to `startStream`
with the caller's callback; RECONFIGURE logs and acknowledges; STOP runs
`stopStream` for the identifier and then acknowledges via the callback. -/
def handleStreamRequest (env : StartEnv) (ty : StreamRequestType)
    (req : StartRequest) (st : DState) : DState × List Ev :=
  match ty with
  | StreamRequestType.start => startStream env req st
  | StreamRequestType.reconfigure =>
    (st, [Ev.logDebug msgReconfigure, Ev.cbOk])
  | StreamRequestType.stop =>
    let stop2 := stopStream env.rtsp env.stopFailures st req.sessionID
    (stop2.1, Ev.logDebug msgStopRequest :: stop2.2 ++ [Ev.cbOk])

/-! ## prepareStream (platform.ts) -/

/-- The per-media fields of the HAP `PrepareStreamRequest` the engine reads:
viewer port, crypto suite, SRTP key and salt. -/
structure MediaRequestInfo where
  port : Nat
  srtpCryptoSuite : Nat
  srtp_key : List Nat
  srtp_salt : List Nat
  deriving DecidableEq

/-- The fields of the HAP `PrepareStreamRequest` the engine reads. -/
structure PrepareRequest where
  sessionID : String
  targetAddress : String
  addressVersion : String
  video : MediaRequestInfo
  audio : MediaRequestInfo
  deriving DecidableEq

/-- One media leg of the `PrepareStreamResponse`. -/
structure PreparedMedia where
  port : Nat
  ssrc : Nat
  srtp_key : List Nat
  srtp_salt : List Nat
  deriving DecidableEq

/-- The `PrepareStreamResponse` returned through the prepare callback. -/
structure PrepareResponse where
  video : PreparedMedia
  audio : PreparedMedia
  deriving DecidableEq

/-- Modelled from the spec: the ephemeral-port allocator (the pick-port
collaborator, called with a 15 second reservation) and the HAP
synchronisation-source generator are external collaborators whose code is not
part of this repository.  Per the spec, each call allocates an unused local
UDP port (the reservation keeps it from being handed out again) and generates
a fresh synchronisation-source identifier; both are modelled as counters
drawing from a fresh supply. -/
structure Supply where
  nextPort : Nat
  nextSSRC : Nat
  deriving DecidableEq

/-- Modelled from the spec: one call of the pick-port collaborator. -/
def pickPort (s : Supply) : Nat × Supply :=
  (s.nextPort, { s with nextPort := s.nextPort + 1 })

/-- Modelled from the spec: one call of
`hap.CameraController.generateSynchronisationSource()`. -/
def genSSRC (s : Supply) : Nat × Supply :=
  (s.nextSSRC, { s with nextSSRC := s.nextSSRC + 1 })

/-- `StreamingDelegate.prepareStream` of platform.ts: allocate the video
return port, the video SSRC, the audio return port and the audio SSRC in that
order, record the `SessionInfo` under the session identifier in the pending
registry, and answer with a response that echoes the SRTP key and salt of the
request for both media.  Returns the new delegate state, the response handed
to the callback, and the remaining supply. -/
def prepareStream (sup : Supply) (req : PrepareRequest) (st : DState) :
    DState × PrepareResponse × Supply :=
  let ipv6 := decide (req.addressVersion = "ipv6")
  let pick1 := pickPort sup
  let ssrc1 := genSSRC pick1.2
  let pick2 := pickPort ssrc1.2
  let ssrc2 := genSSRC pick2.2
  let info : SessionInfo :=
    { address := req.targetAddress, ipv6 := ipv6,
      videoPort := req.video.port, videoReturnPort := pick1.1,
      videoCryptoSuite := req.video.srtpCryptoSuite,
      videoSRTP := req.video.srtp_key ++ req.video.srtp_salt,
      videoSSRC := ssrc1.1,
      audioPort := req.audio.port, audioReturnPort := pick2.1,
      audioCryptoSuite := req.audio.srtpCryptoSuite,
      audioSRTP := req.audio.srtp_key ++ req.audio.srtp_salt,
      audioSSRC := ssrc2.1 }
  let respVideo : PreparedMedia :=
    { port := pick1.1, ssrc := ssrc1.1, srtp_key := req.video.srtp_key,
      srtp_salt := req.video.srtp_salt }
  let respAudio : PreparedMedia :=
    { port := pick2.1, ssrc := ssrc2.1, srtp_key := req.audio.srtp_key,
      srtp_salt := req.audio.srtp_salt }
  let resp : PrepareResponse := { video := respVideo, audio := respAudio }
  (⟨mapSet st.pendingSessions req.sessionID info, st.ongoingSessions⟩, resp, ssrc2.2)

/-! ## FfmpegProcess (plugin/utils/ffmpeg-new.ts) -/

/-- The lifecycle state of one `FfmpegProcess` supervisor.  `ffmpegTimeoutSet`
is whether the forced-kill grace timer field has ever been assigned (it is
assigned only by `stopProcess` and never reset, and `clearTimeout` does not
clear the field); `processPresent` is whether `this.process` is non-null;
`processKilled` is the `killed` flag of the child; `usesStdinPipe` is whether
the command line contains `pipe:0`. -/
structure FfmpegState where
  ffmpegTimeoutSet : Bool
  hasError : Bool
  isStarted : Bool
  isEnded : Bool
  processPresent : Bool
  processKilled : Bool
  stderrBuffer : String
  stderrLog : List String
  usesStdinPipe : Bool
  deriving DecidableEq

/-- One observable action of an `FfmpegProcess` supervisor. -/
inductive ProcEv where
  | clearKillTimer
  | logDebugProc (m : String)
  | flushBuffer
  | errorReport
  | errorHandlerCall
  | stdinEndQ
  | stdinDestroy
  | stdoutDestroy
  | armKillTimer
  | killProcess
  deriving DecidableEq

def msgNormalExit : String := "FFmpeg process ended (Normal)."
def msgKilledExit : String := "FFmpeg process ended (Killed)."
def msgExpectedExit : String := "FFmpeg process ended (Expected)."

/-- Release actions on the child process performed by `stopProcess`. -/
def isProcReleaseEv : ProcEv → Bool
  | ProcEv.stdinEndQ => true
  | ProcEv.stdinDestroy => true
  | ProcEv.stdoutDestroy => true
  | ProcEv.killProcess => true
  | _ => false

/-- The `exit` listener installed by `FfmpegProcess.configureProcess`: clear
the grace timer if armed; mark the handle ended; then either log a normal
exit (exit code 0 while the grace timer was armed), log an expected or killed
exit (`null` or 255 exit status while the child was killed), or take the
fault path: set the error flag, flush the retained stderr buffer into the log
ring, emit the error report (`logFfmpegError` dumps the ring), and invoke the
registered error handler if one was provided.  Finally the process reference
and the log ring are cleared.  `exitCode` is `none` for a `null` exit status;
`sigKill` is whether the terminating signal was SIGKILL. -/
def onExit (hasHandler : Bool) (exitCode : Option Int) (sigKill : Bool)
    (s : FfmpegState) : FfmpegState × List ProcEv :=
  let tr0 := if s.ffmpegTimeoutSet then [ProcEv.clearKillTimer] else []
  let s1 : FfmpegState := { s with isStarted := false, isEnded := true }
  if s.ffmpegTimeoutSet = true ∧ exitCode = some 0 then
    ({ s1 with processPresent := false, stderrLog := [] },
      tr0 ++ [ProcEv.logDebugProc msgNormalExit])
  else if (exitCode = none ∨ exitCode = some 255) ∧ s.processKilled = true then
    ({ s1 with processPresent := false, stderrLog := [] },
      tr0 ++ [ProcEv.logDebugProc (if sigKill then msgKilledExit else msgExpectedExit)])
  else
    let s2 : FfmpegState := { s1 with hasError := true }
    let flushTr := if s.stderrBuffer = "" then [] else [ProcEv.flushBuffer]
    let s3 : FfmpegState := if s.stderrBuffer = "" then s2 else
      { s2 with stderrLog := s2.stderrLog ++ [s.stderrBuffer], stderrBuffer := "" }
    let handlerTr := if hasHandler then [ProcEv.errorHandlerCall] else []
    ({ s3 with processPresent := false, stderrLog := [] },
      tr0 ++ flushTr ++ [ProcEv.errorReport] ++ handlerTr)

/-- `FfmpegProcess.stopProcess` (the body of the public `stop()`): half-close
stdin with a quit command unless stdin itself carries piped media, destroy
stdin and stdout, arm the 5 second forced-kill grace timer, and send the
graceful kill.  Every access to the child goes through the optional chain
`this.process?.`, so on an already-ended handle (null process) only the timer
assignment happens. -/
def stopProcess (s : FfmpegState) : FfmpegState × List ProcEv :=
  let tr1 := if s.usesStdinPipe then [] else
    (if s.processPresent then [ProcEv.stdinEndQ] else [])
  let tr2 := if s.processPresent then [ProcEv.stdinDestroy, ProcEv.stdoutDestroy] else []
  let tr4 := if s.processPresent then [ProcEv.killProcess] else []
  let s2 : FfmpegState :=
    { s with
      ffmpegTimeoutSet := true,
      processKilled := s.processKilled || s.processPresent }
  (s2, tr1 ++ tr2 ++ [ProcEv.armKillTimer] ++ tr4)

/-! ## Inactivity socket (FfmpegStreamingProcess.createSocket,
plugin/utils/ffmpeg-stream.ts)

The socket installs no timer when it is bound.  Every inbound datagram clears
the previous `streamTimeout` (if any) and schedules a new one 5000 ms later;
when a scheduled timeout fires it logs, asks the controller to forcibly stop
the streaming session, and calls `delegate.stopStream`. -/

/-- The `message` listener: the previous timer (if any) is cleared and a new
one is scheduled 5000 ms after the arrival instant `t`. -/
def socketStep (timer : Option Nat) (t : Nat) : Option Nat :=
  match timer with
  | some _ => some (t + 5000)
  | none => some (t + 5000)

/-- The scheduled inactivity deadline after a sequence of datagram arrival
instants (in ms), starting from the bind, which arms no timer. -/
def socketRun (arrivals : List Nat) : Option Nat :=
  arrivals.foldl socketStep none

/-- What the fired inactivity timer does: log, request forced session
termination upstream, and stop the own session. -/
def timerFireEvents (id : String) : List Ev :=
  [Ev.logDebug msgInactive, Ev.forceStop id, Ev.stopRequest id]

/-! ## Helper lemmas -/

theorem socketStep_eq (x : Option Nat) (t : Nat) : socketStep x t = some (t + 5000) := by
  cases x <;> rfl

theorem socketRun_cons_cons (a b : Nat) (t : List Nat) :
    socketRun (a :: b :: t) = socketRun (b :: t) := rfl

theorem socketRun_getLast (l : List Nat) :
    socketRun l = Option.map (fun x => x + 5000) l.getLast? := by
  induction l with
  | nil => rfl
  | cons a t ih =>
    cases t with
    | nil => rfl
    | cons b t2 =>
      rw [socketRun_cons_cons, ih, List.getLast?_cons_cons]

/-- The events a teardown block can contain: resource releases and swallowed
error logs, nothing else (in particular no callback and no registry ops). -/
def isReleaseOrErr : Ev → Bool
  | Ev.logError _ => true
  | e => isReleaseEv e

theorem stopReturnBlock_all (a b c d e : Bool) :
    (stopReturnBlock a b c d e).all isReleaseOrErr = true := by
  revert a b c d e; decide

theorem stopVideoBlock_all (a b : Bool) :
    (stopVideoBlock a b).all isReleaseOrErr = true := by
  revert a b; decide

theorem stopAudioBlock_all (a b : Bool) :
    (stopAudioBlock a b).all isReleaseOrErr = true := by
  revert a b; decide

theorem closeSocketBlock_all (a b : Bool) :
    (closeSocketBlock a b).all isReleaseOrErr = true := by
  revert a b; decide

theorem releaseFeedBlock_all (a b : Bool) :
    (releaseFeedBlock a b).all isReleaseOrErr = true := by
  revert a b; decide

theorem releaseTrace_all (rtsp : Bool) (s : ActiveSession) (f : StopFailures) :
    (releaseTrace rtsp s f).all isReleaseOrErr = true := by
  simp only [releaseTrace, List.all_append, Bool.and_eq_true]
  refine ⟨⟨⟨⟨⟨?_, ?_⟩, ?_⟩, ?_⟩, ?_⟩, ?_⟩
  · cases s.timeout <;> decide
  · exact stopReturnBlock_all _ _ _ _ _
  · exact stopVideoBlock_all _ _
  · exact stopAudioBlock_all _ _
  · exact closeSocketBlock_all _ _
  · exact releaseFeedBlock_all _ _

theorem isReleaseOrErr_not_cb (e : Ev) (h : isReleaseOrErr e = true) :
    isCbEv e = false := by
  cases e <;> simp_all [isReleaseOrErr, isReleaseEv, isCbEv]

theorem isReleaseOrErr_not_ongoingDelete (e : Ev) (h : isReleaseOrErr e = true)
    (k : String) : e ≠ Ev.ongoingDelete k := by
  cases e <;> simp_all [isReleaseOrErr, isReleaseEv]

theorem isReleaseOrErr_not_stopReturnProc (e : Ev) (h : isReleaseOrErr e = true)
    (hr : isReleaseEv e = false) : e ≠ Ev.stopReturnProc := by
  cases e <;> simp_all [isReleaseOrErr, isReleaseEv]

theorem releaseTrace_filter_cb (rtsp : Bool) (s : ActiveSession) (f : StopFailures) :
    (releaseTrace rtsp s f).filter isCbEv = [] := by
  rw [List.filter_eq_nil_iff]
  intro e he
  have := List.all_eq_true.mp (releaseTrace_all rtsp s f) e he
  simp [isReleaseOrErr_not_cb e this]

theorem ongoingDelete_not_mem_releaseTrace (rtsp : Bool) (s : ActiveSession)
    (f : StopFailures) (k : String) : Ev.ongoingDelete k ∉ releaseTrace rtsp s f := by
  intro hmem
  have := List.all_eq_true.mp (releaseTrace_all rtsp s f) _ hmem
  exact isReleaseOrErr_not_ongoingDelete _ this k rfl

/-- Demo inputs used by the concrete counterexamples and witnesses. -/

def sid : String := "s1"

def infoDemo : SessionInfo :=
  { address := "10.0.0.2", ipv6 := false, videoPort := 50000, videoReturnPort := 100,
    videoCryptoSuite := 0, videoSRTP := [1, 2], videoSSRC := 7,
    audioPort := 50002, audioReturnPort := 101, audioCryptoSuite := 0,
    audioSRTP := [3, 4], audioSSRC := 8 }

def noFailures : StopFailures :=
  { talkbackThrows := false, unpipeThrows := false, returnStopThrows := false,
    videoStopThrows := false, audioStopThrows := false, socketCloseThrows := false,
    livestreamThrows := false }

def failTalkbackOnly : StopFailures :=
  { noFailures with talkbackThrows := true }

def envRtsp : StartEnv :=
  { rtsp := true, livestreamOk := true, videoConfigAudio := false, talkback := false,
    interleavedStop := false, stopFailures := noFailures }

def reqDemo : StartRequest :=
  { sessionID := sid, audioCodec := AudioCodec.opus, rtcpInterval := 1 }

def sessionFull : ActiveSession :=
  { videoProcess := true, audioProcess := true, returnProcess := true,
    timeout := true, socket := true, talkbackStream := true }

def emptyState : DState := ⟨[], []⟩

def pendingOnlyState : DState := ⟨[(sid, infoDemo)], []⟩

def activeOnlyState : DState := ⟨[], [(sid, sessionFull)]⟩

/-! ## Claims -/

/-- Claim C1 (a code bug, evaluated at the failing input): for a start
request whose identifier has no pending entry, the engine invokes the
readiness callback twice, not exactly once as the claim requires — once with
the session-lookup error and, because that error path has no return
statement, once more from the catch block with the TypeError raised by
dereferencing the missing session info. -/
theorem C1_callback_invoked_twice_on_unknown_session :
    countCb (startStream envRtsp reqDemo emptyState).2 = 2 ∧
    (startStream envRtsp reqDemo emptyState).2.filter isCbEv =
      [Ev.cbErr msgFindErr, Ev.cbErr msgTypeErr] := by
  constructor <;> rfl

/-- Claim C2: a start on an identifier with no pending entry fails by
invoking its callback with an error and has no side effects: no socket is
created or bound, no subprocess is constructed or spawned, nothing is piped,
and both registries are left exactly as they were. -/
theorem C2_unknown_start_no_side_effects (env : StartEnv) (req : StartRequest)
    (st : DState) (h : mapGet st.pendingSessions req.sessionID = none) :
    (startStream env req st).1 = st ∧
    (startStream env req st).2.filter isStartSideEffect = [] ∧
    Ev.cbErr msgFindErr ∈ (startStream env req st).2 := by
  have hd : mapDelete st.pendingSessions req.sessionID = st.pendingSessions :=
    mapDelete_of_get_none _ _ h
  refine ⟨?_, ?_, ?_⟩
  · simp [startStream, h, hd]
  · simp [startStream, h, startHead, isStartSideEffect]
  · simp [startStream, h, startHead]

/-- Claim C2 witness: the theorem applied to a start for an unprepared
identifier on the empty delegate state. -/
theorem C2_unknown_start_no_side_effects_witness :
    mapGet emptyState.pendingSessions reqDemo.sessionID = none ∧
    ((startStream envRtsp reqDemo emptyState).1 = emptyState ∧
      (startStream envRtsp reqDemo emptyState).2.filter isStartSideEffect = [] ∧
      Ev.cbErr msgFindErr ∈ (startStream envRtsp reqDemo emptyState).2) :=
  ⟨rfl, C2_unknown_start_no_side_effects envRtsp reqDemo emptyState rfl⟩

/-- Claim C9: every prepare response echoes the SRTP key and salt of the
request unchanged for both media, carries two distinct freshly allocated
return ports and two distinct freshly generated synchronisation sources,
and records the pending session with the concatenated key and salt. -/
theorem C9_prepare_echo_and_distinct (sup : Supply) (req : PrepareRequest)
    (st : DState) :
    (prepareStream sup req st).2.1.video.srtp_key = req.video.srtp_key ∧
    (prepareStream sup req st).2.1.video.srtp_salt = req.video.srtp_salt ∧
    (prepareStream sup req st).2.1.audio.srtp_key = req.audio.srtp_key ∧
    (prepareStream sup req st).2.1.audio.srtp_salt = req.audio.srtp_salt ∧
    (prepareStream sup req st).2.1.video.port ≠ (prepareStream sup req st).2.1.audio.port ∧
    (prepareStream sup req st).2.1.video.ssrc ≠ (prepareStream sup req st).2.1.audio.ssrc ∧
    (∃ info, mapGet (prepareStream sup req st).1.pendingSessions req.sessionID = some info ∧
      info.videoSRTP = req.video.srtp_key ++ req.video.srtp_salt ∧
      info.audioSRTP = req.audio.srtp_key ++ req.audio.srtp_salt) := by
  refine ⟨rfl, rfl, rfl, rfl, ?_, ?_, ?_⟩
  · show sup.nextPort ≠ sup.nextPort + 1
    omega
  · show sup.nextSSRC ≠ sup.nextSSRC + 1
    omega
  · exact ⟨_, mapGet_set_self _ _ _, rfl, rfl⟩

/-- Claim C6 counterexample: when no datagram ever arrives after the socket
is bound, no inactivity deadline is ever scheduled, so no forced stop fires —
the claim asserts a forced stop within one timer tick of the 5 second window.
(The rearm half of the claim does hold: a single datagram at 4.9 s schedules
the deadline at 9.9 s.) -/
theorem C6_no_datagram_no_timeout :
    socketRun [] = none ∧ socketRun [4900] = some 9900 := ⟨rfl, rfl⟩

/-- Claim C6 (amended): the inactivity timer is armed only by inbound
datagrams; after at least one datagram the deadline is 5000 ms after the last
arrival (so a datagram at 4.9 s defers the timeout to 9.9 s), and the fired
timer requests forced session termination upstream and stops the session; if
no datagram ever arrives after the bind, no timer is armed and no timeout
ever fires. -/
theorem C6_inactivity_rearm (arrivals : List Nat) (t : Nat) (id : String)
    (h : arrivals.getLast? = some t) :
    socketRun arrivals = some (t + 5000) ∧
    Ev.forceStop id ∈ timerFireEvents id ∧
    Ev.stopRequest id ∈ timerFireEvents id := by
  refine ⟨?_, by simp [timerFireEvents], by simp [timerFireEvents]⟩
  rw [socketRun_getLast, h]
  rfl

/-- Claim C6 witness: a single datagram at 4900 ms schedules the inactivity
deadline at 9900 ms. -/
theorem C6_inactivity_rearm_witness :
    ([4900] : List Nat).getLast? = some 4900 ∧
    (socketRun [4900] = some (4900 + 5000) ∧
      Ev.forceStop sid ∈ timerFireEvents sid ∧
      Ev.stopRequest sid ∈ timerFireEvents sid) :=
  ⟨by simp, C6_inactivity_rearm [4900] 4900 sid (by simp)⟩

/-- A supervisor state whose subprocess is running normally: no stop was
requested (the forced-kill grace timer was never armed), the child was not
killed, and some stderr output is buffered. -/
def procRunningState : FfmpegState :=
  { ffmpegTimeoutSet := false, hasError := false, isStarted := true, isEnded := false,
    processPresent := true, processKilled := false, stderrBuffer := "frame 1 fps 30",
    stderrLog := [], usesStdinPipe := false }

/-- Claim C5 counterexample: an exit with code 0 while no supervisor stop was
in progress (grace timer never armed, child not killed) takes the fault path:
the error flag is set, the retained buffer is flushed and the log ring is
dumped into an error report, and the registered error handler is invoked —
the claim says a 0 exit is handled as clean unconditionally. -/
theorem C5_exit_zero_without_stop_is_fault :
    (onExit true (some 0) false procRunningState).1.hasError = true ∧
    ProcEv.errorHandlerCall ∈ (onExit true (some 0) false procRunningState).2 ∧
    ProcEv.flushBuffer ∈ (onExit true (some 0) false procRunningState).2 := by
  refine ⟨rfl, ?_, ?_⟩ <;> decide

/-- Claim C5 (amended): an exit with code 0 is handled as a clean exit
exactly when the supervisor's forced-kill grace timer was armed, that is,
when a supervisor-initiated stop was in progress; otherwise the 0 exit sets
the error flag, dumps the retained log ring into an error report, and invokes
the registered error handler if one was provided. -/
theorem C5_exit_zero_clean_iff_timer_armed (hasHandler sigKill : Bool)
    (s : FfmpegState) :
    ((onExit hasHandler (some 0) sigKill s).1.hasError =
      (if s.ffmpegTimeoutSet then s.hasError else true)) ∧
    ((ProcEv.errorReport ∈ (onExit hasHandler (some 0) sigKill s).2) ↔
      s.ffmpegTimeoutSet = false) ∧
    ((ProcEv.errorHandlerCall ∈ (onExit hasHandler (some 0) sigKill s).2) ↔
      (s.ffmpegTimeoutSet = false ∧ hasHandler = true)) := by
  obtain ⟨ft, he, hs, hie, hpp, hpk, sb, sl, hup⟩ := s
  cases ft <;> cases hasHandler <;>
    by_cases hb : sb = "" <;>
      simp [onExit, hb]

/-! ## Claims about startStream ordering (C3) -/

theorem pendingDelete_not_mem_startHead (b : Bool) (k : String) :
    Ev.pendingDelete k ∉ startHead b := by
  cases b <;> simp [startHead]

theorem pendingDelete_not_mem_warnSeg (u v : Bool) (k : String) :
    Ev.pendingDelete k ∉ warnSeg u v := by
  cases u <;> cases v <;> simp [warnSeg]

theorem pendingDelete_not_mem_spawnSeg (a b : Bool) (k : String) :
    Ev.pendingDelete k ∉ spawnSeg a b := by
  cases a <;> cases b <;> simp [spawnSeg]

theorem startVideoProcess_not_mem_warnSeg (u v : Bool) :
    Ev.startVideoProcess ∉ warnSeg u v := by
  cases u <;> cases v <;> simp [warnSeg]

theorem ongoingSet_not_mem_warnSeg (u v : Bool) (k : String) :
    Ev.ongoingSet k ∉ warnSeg u v := by
  cases u <;> cases v <;> simp [warnSeg]

theorem socketBind_mem_startPre (env : StartEnv) (req : StartRequest)
    (info : SessionInfo) :
    Ev.socketBind info.videoReturnPort ∈ startPre env req info := by
  simp [startPre, startHead]

theorem pendingDelete_not_mem_startPre (env : StartEnv) (req : StartRequest)
    (info : SessionInfo) (k : String) :
    Ev.pendingDelete k ∉ startPre env req info := by
  simp [startPre, List.mem_append, pendingDelete_not_mem_startHead,
    pendingDelete_not_mem_warnSeg]

theorem startVideoProcess_not_mem_startPre (env : StartEnv) (req : StartRequest)
    (info : SessionInfo) :
    Ev.startVideoProcess ∉ startPre env req info := by
  simp [startPre, startHead, List.mem_append, startVideoProcess_not_mem_warnSeg]

theorem ongoingSet_not_mem_startPre (env : StartEnv) (req : StartRequest)
    (info : SessionInfo) (k : String) :
    Ev.ongoingSet k ∉ startPre env req info := by
  simp [startPre, startHead, List.mem_append, ongoingSet_not_mem_warnSeg]

theorem getLast_append_triple {α : Type} (l : List α) (a b c : α) :
    (l ++ [a, b, c]).getLast? = some c := by
  rw [show l ++ [a, b, c] = (l ++ [a, b]) ++ [c] by simp]
  exact List.getLast?_concat _

theorem startFinish_no_interleave (env : StartEnv) (req : StartRequest)
    (st : DState) (pre : List Ev) (hasFeed : Bool)
    (hstop : env.interleavedStop = false) (info : SessionInfo)
    (h : mapGet st.pendingSessions req.sessionID = some info) :
    startFinish env req st pre hasFeed =
      (⟨mapDelete st.pendingSessions req.sessionID,
        mapSet st.ongoingSessions req.sessionID
          ⟨true, false, env.talkback, false, true, env.talkback⟩⟩,
        (pre ++ spawnSeg hasFeed env.talkback) ++
          [Ev.ongoingSet req.sessionID, Ev.pendingDelete req.sessionID]) := by
  simp [startFinish, hstop, h]

theorem startFinish_trace_head (env : StartEnv) (req : StartRequest)
    (st : DState) (pre : List Ev) (hasFeed : Bool) :
    ∃ rest, (startFinish env req st pre hasFeed).2 = pre ++ rest := by
  cases hil : env.interleavedStop
  · rcases hm : mapGet st.pendingSessions req.sessionID with _ | v <;>
      simp [startFinish, hil, hm]
  · rcases hm : mapGet st.pendingSessions req.sessionID with _ | v <;>
      rcases h2 : mapGet st.ongoingSessions req.sessionID with _ | w <;>
        simp [startFinish, hil, stopStream, hm, h2, mapGet_delete_self,
          mapGet_set_self]

theorem startFinish_pending_none (env : StartEnv) (req : StartRequest)
    (st : DState) (pre : List Ev) (hasFeed : Bool) (info : SessionInfo)
    (h : mapGet st.pendingSessions req.sessionID = some info) :
    mapGet (startFinish env req st pre hasFeed).1.pendingSessions
      req.sessionID = none := by
  cases hil : env.interleavedStop
  · simp [startFinish, hil, h, mapGet_delete_self]
  · rcases h2 : mapGet st.ongoingSessions req.sessionID with _ | w <;>
      simp [startFinish, hil, stopStream, h, h2, mapGet_delete_self,
        mapGet_set_self]

theorem startFinish_interleaved (env : StartEnv) (req : StartRequest)
    (st : DState) (pre : List Ev) (hasFeed : Bool) (info : SessionInfo)
    (h : mapGet st.pendingSessions req.sessionID = some info)
    (hil : env.interleavedStop = true) :
    Ev.ongoingDelete req.sessionID ∈ (startFinish env req st pre hasFeed).2 ∧
    mapGet (startFinish env req st pre hasFeed).1.ongoingSessions
      req.sessionID = none := by
  rcases h2 : mapGet st.ongoingSessions req.sessionID with _ | w <;>
    constructor <;>
      simp [startFinish, hil, stopStream, h, h2, mapGet_delete_self,
        mapGet_set_self]

/-- Claim C3 counterexample: on a start that finds its pending entry, the
return socket is bound (trace position 2) before the pending entry is removed
(trace position 6, after the process spawn and the transfer into the active
registry) — the entry is not removed synchronously on lookup before the
observable side effects, as the claim states. -/
theorem C3_pending_not_removed_on_lookup :
    (startStream envRtsp reqDemo pendingOnlyState).2.findIdx?
        (fun e => decide (e = Ev.socketBind infoDemo.videoReturnPort)) = some 2 ∧
    (startStream envRtsp reqDemo pendingOnlyState).2.findIdx?
        (fun e => decide (e = Ev.pendingDelete reqDemo.sessionID)) = some 6 := by
  constructor <;> rfl

/-- Claim C3 (amended): the pending entry is not removed synchronously on
lookup: on every path of a start that finds its pending entry, the return
socket is created and bound before any pending-registry removal (the trace
has a prefix containing the bind and no removal), and the entry is gone from
the pending registry when the call completes.  On the successful path it is
removed immediately after the session is transferred into the active
registry, strictly after the transcoder is spawned; on the local-feed-failure
path the catch removes it as its last action, with no process spawned and no
transfer into the active registry; and when an interleaved stop removed it
during startup, the re-check detects this after spawning and the freshly
activated session is immediately torn down, leaving the active registry
without it. -/
theorem C3_pending_removed_only_after_bind (env : StartEnv) (req : StartRequest)
    (st : DState) (info : SessionInfo)
    (h : mapGet st.pendingSessions req.sessionID = some info) :
    (∃ pre rest, (startStream env req st).2 = pre ++ rest ∧
      Ev.socketBind info.videoReturnPort ∈ pre ∧
      (∀ k, Ev.pendingDelete k ∉ pre)) ∧
    mapGet (startStream env req st).1.pendingSessions req.sessionID = none ∧
    (env.interleavedStop = false → (env.rtsp = true ∨ env.livestreamOk = true) →
      ∃ body, (startStream env req st).2 =
          body ++ [Ev.ongoingSet req.sessionID, Ev.pendingDelete req.sessionID] ∧
        Ev.startVideoProcess ∈ body ∧
        (∀ k, Ev.pendingDelete k ∉ body) ∧
        mapGet (startStream env req st).1.ongoingSessions req.sessionID =
          some ⟨true, false, env.talkback, false, true, env.talkback⟩) ∧
    (env.rtsp = false → env.livestreamOk = false →
      Ev.startVideoProcess ∉ (startStream env req st).2 ∧
      (∀ k, Ev.ongoingSet k ∉ (startStream env req st).2) ∧
      (startStream env req st).2.getLast? = some (Ev.pendingDelete req.sessionID) ∧
      (startStream env req st).1.ongoingSessions = st.ongoingSessions) ∧
    (env.interleavedStop = true → (env.rtsp = true ∨ env.livestreamOk = true) →
      Ev.ongoingDelete req.sessionID ∈ (startStream env req st).2 ∧
      mapGet (startStream env req st).1.ongoingSessions req.sessionID = none) := by
  refine ⟨?_, ?_, ?_, ?_, ?_⟩
  · cases hr : env.rtsp
    · cases hls : env.livestreamOk
      · exact ⟨startPre env req info,
          [Ev.logError msgCatch, Ev.cbErr msgLiveErr, Ev.pendingDelete req.sessionID],
          by simp [startStream, h, hr, hls], socketBind_mem_startPre env req info,
          pendingDelete_not_mem_startPre env req info⟩
      · obtain ⟨rest, hrest⟩ :=
          startFinish_trace_head env req st (startPre env req info) true
        refine ⟨startPre env req info, rest, ?_,
          socketBind_mem_startPre env req info,
          pendingDelete_not_mem_startPre env req info⟩
        have heq : (startStream env req st).2 =
            (startFinish env req st (startPre env req info) true).2 := by
          simp [startStream, h, hr, hls]
        rw [heq, hrest]
    · obtain ⟨rest, hrest⟩ :=
        startFinish_trace_head env req st (startPre env req info) false
      refine ⟨startPre env req info, rest, ?_,
        socketBind_mem_startPre env req info,
        pendingDelete_not_mem_startPre env req info⟩
      have heq : (startStream env req st).2 =
          (startFinish env req st (startPre env req info) false).2 := by
        simp [startStream, h, hr]
      rw [heq, hrest]
  · cases hr : env.rtsp
    · cases hls : env.livestreamOk
      · simp [startStream, h, hr, hls, mapGet_delete_self]
      · have heq : (startStream env req st).1 =
            (startFinish env req st (startPre env req info) true).1 := by
          simp [startStream, h, hr, hls]
        rw [heq]
        exact startFinish_pending_none env req st _ true info h
    · have heq : (startStream env req st).1 =
          (startFinish env req st (startPre env req info) false).1 := by
        simp [startStream, h, hr]
      rw [heq]
      exact startFinish_pending_none env req st _ false info h
  · intro hil hok
    by_cases hr : env.rtsp = true
    · simp only [startStream, h, hr, if_true]
      rw [startFinish_no_interleave env req st _ false hil info h]
      refine ⟨_, rfl, ?_, ?_, ?_⟩
      · simp [spawnSeg]
      · intro k
        simp [List.mem_append, pendingDelete_not_mem_startPre,
          pendingDelete_not_mem_spawnSeg]
      · simp [mapGet_set_self]
    · have hl : env.livestreamOk = true := by
        rcases hok with h1 | h1
        · exact absurd h1 hr
        · exact h1
      simp only [startStream, h, hr, hl, if_false, if_true, Bool.false_eq_true]
      rw [startFinish_no_interleave env req st _ true hil info h]
      refine ⟨_, rfl, ?_, ?_, ?_⟩
      · simp [spawnSeg]
      · intro k
        simp [List.mem_append, pendingDelete_not_mem_startPre,
          pendingDelete_not_mem_spawnSeg]
      · simp [mapGet_set_self]
  · intro hr hls
    refine ⟨?_, ?_, ?_, ?_⟩
    · simp [startStream, h, hr, hls, startVideoProcess_not_mem_startPre]
    · intro k
      simp [startStream, h, hr, hls, ongoingSet_not_mem_startPre]
    · simp [startStream, h, hr, hls, getLast_append_triple]
    · simp [startStream, h, hr, hls]
  · intro hil hok
    by_cases hr : env.rtsp = true
    · simp only [startStream, h, hr, if_true]
      exact startFinish_interleaved env req st (startPre env req info) false info h hil
    · have hl : env.livestreamOk = true := by
        rcases hok with h1 | h1
        · exact absurd h1 hr
        · exact h1
      simp only [startStream, h, hr, hl, if_false, if_true, Bool.false_eq_true]
      exact startFinish_interleaved env req st (startPre env req info) true info h hil

/-- Claim C3 witness: the amended theorem applied to a prepared session on an
RTSP-capable device with no interleaved stop. -/
theorem C3_pending_removed_only_after_bind_witness :
    mapGet pendingOnlyState.pendingSessions reqDemo.sessionID = some infoDemo ∧
    ((∃ pre rest, (startStream envRtsp reqDemo pendingOnlyState).2 = pre ++ rest ∧
        Ev.socketBind infoDemo.videoReturnPort ∈ pre ∧
        (∀ k, Ev.pendingDelete k ∉ pre)) ∧
      mapGet (startStream envRtsp reqDemo pendingOnlyState).1.pendingSessions
        reqDemo.sessionID = none ∧
      (envRtsp.interleavedStop = false →
        (envRtsp.rtsp = true ∨ envRtsp.livestreamOk = true) →
        ∃ body, (startStream envRtsp reqDemo pendingOnlyState).2 =
            body ++ [Ev.ongoingSet reqDemo.sessionID,
              Ev.pendingDelete reqDemo.sessionID] ∧
          Ev.startVideoProcess ∈ body ∧
          (∀ k, Ev.pendingDelete k ∉ body) ∧
          mapGet (startStream envRtsp reqDemo pendingOnlyState).1.ongoingSessions
            reqDemo.sessionID =
            some ⟨true, false, envRtsp.talkback, false, true, envRtsp.talkback⟩) ∧
      (envRtsp.rtsp = false → envRtsp.livestreamOk = false →
        Ev.startVideoProcess ∉ (startStream envRtsp reqDemo pendingOnlyState).2 ∧
        (∀ k, Ev.ongoingSet k ∉ (startStream envRtsp reqDemo pendingOnlyState).2) ∧
        (startStream envRtsp reqDemo pendingOnlyState).2.getLast? =
          some (Ev.pendingDelete reqDemo.sessionID) ∧
        (startStream envRtsp reqDemo pendingOnlyState).1.ongoingSessions =
          pendingOnlyState.ongoingSessions) ∧
      (envRtsp.interleavedStop = true →
        (envRtsp.rtsp = true ∨ envRtsp.livestreamOk = true) →
        Ev.ongoingDelete reqDemo.sessionID ∈
          (startStream envRtsp reqDemo pendingOnlyState).2 ∧
        mapGet (startStream envRtsp reqDemo pendingOnlyState).1.ongoingSessions
          reqDemo.sessionID = none)) :=
  ⟨rfl, C3_pending_removed_only_after_bind envRtsp reqDemo pendingOnlyState
    infoDemo rfl⟩

/-! ## Claims about stopStream teardown (C4, C7, C8, C10) -/

/-- Claim C4 counterexample: tearing down a full session closes the liveness
socket (trace position 7) before the session is deleted from the active
registry (trace position 8) — the registry removal happens after the
resources are released, not before as the claim states. -/
theorem C4_removal_not_before_release :
    (stopStream true noFailures activeOnlyState sid).2.findIdx?
        (fun e => decide (e = Ev.closeSocket)) = some 7 ∧
    (stopStream true noFailures activeOnlyState sid).2.findIdx?
        (fun e => decide (e = Ev.ongoingDelete sid)) = some 8 := by
  constructor <;> rfl

/-- Claim C4 (amended): whenever a session is torn down, every one of its
resource-release steps happens first and the entry is removed from the
active-session registry as the (second-to-) last action of `stopStream`,
followed only by the completion log line; afterwards the session is no longer
reachable from the registry. -/
theorem C4_registry_removal_after_release (rtsp : Bool) (f : StopFailures)
    (st : DState) (id : String) (s : ActiveSession)
    (h : mapGet st.ongoingSessions id = some s) :
    ∃ body,
      (stopStream rtsp f st id).2 =
        body ++ [Ev.ongoingDelete id, Ev.logInfo msgStopped] ∧
      (∀ k, Ev.ongoingDelete k ∉ body) ∧
      (stopStream rtsp f st id).2.filter isReleaseEv = body.filter isReleaseEv ∧
      mapGet (stopStream rtsp f st id).1.ongoingSessions id = none := by
  by_cases hpp : (mapGet st.pendingSessions id).isSome
  · refine ⟨Ev.logDebug msgStopping :: Ev.pendingDelete id :: releaseTrace rtsp s f,
      ?_, ?_, ?_, ?_⟩
    · simp [stopStream, h, hpp]
    · intro k
      simp [ongoingDelete_not_mem_releaseTrace]
    · simp [stopStream, h, hpp, List.filter_append, isReleaseEv]
    · simp [stopStream, h, hpp, mapGet_delete_self]
  · refine ⟨Ev.logDebug msgStopping :: releaseTrace rtsp s f, ?_, ?_, ?_, ?_⟩
    · simp [stopStream, h, hpp]
    · intro k
      simp [ongoingDelete_not_mem_releaseTrace]
    · simp [stopStream, h, hpp, List.filter_append, isReleaseEv]
    · simp [stopStream, h, hpp, mapGet_delete_self]

/-- Claim C4 witness: the amended theorem applied to a registered full
session. -/
theorem C4_registry_removal_after_release_witness :
    mapGet activeOnlyState.ongoingSessions sid = some sessionFull ∧
    (∃ body,
      (stopStream true noFailures activeOnlyState sid).2 =
        body ++ [Ev.ongoingDelete sid, Ev.logInfo msgStopped] ∧
      (∀ k, Ev.ongoingDelete k ∉ body) ∧
      (stopStream true noFailures activeOnlyState sid).2.filter isReleaseEv =
        body.filter isReleaseEv ∧
      mapGet (stopStream true noFailures activeOnlyState sid).1.ongoingSessions
        sid = none) :=
  ⟨rfl, C4_registry_removal_after_release true noFailures activeOnlyState sid
    sessionFull rfl⟩

/-- The fixed source order of the resource-release steps of `stopStream`. -/
def canonicalReleaseOrder : List Ev :=
  [Ev.clearTimer, Ev.stopTalkback, Ev.unpipeReturn, Ev.stopReturnProc,
    Ev.stopVideoProc, Ev.stopAudioProc, Ev.closeSocket, Ev.releaseLivestream]

theorem timerSeg_sublist (tm : Bool) :
    List.Sublist ((if tm then [Ev.clearTimer] else []).filter isReleaseEv)
      [Ev.clearTimer] := by
  revert tm; decide

theorem stopReturnBlock_sublist (a b c d e : Bool) :
    List.Sublist ((stopReturnBlock a b c d e).filter isReleaseEv)
      [Ev.stopTalkback, Ev.unpipeReturn, Ev.stopReturnProc] := by
  revert a b c d e; decide

theorem stopVideoBlock_sublist (a b : Bool) :
    List.Sublist ((stopVideoBlock a b).filter isReleaseEv) [Ev.stopVideoProc] := by
  revert a b; decide

theorem stopAudioBlock_sublist (a b : Bool) :
    List.Sublist ((stopAudioBlock a b).filter isReleaseEv) [Ev.stopAudioProc] := by
  revert a b; decide

theorem closeSocketBlock_sublist (a b : Bool) :
    List.Sublist ((closeSocketBlock a b).filter isReleaseEv) [Ev.closeSocket] := by
  revert a b; decide

theorem releaseFeedBlock_sublist (a b : Bool) :
    List.Sublist ((releaseFeedBlock a b).filter isReleaseEv)
      [Ev.releaseLivestream] := by
  revert a b; decide

/-- The release actions a teardown performs occur in the fixed source order:
timer, talkback, unpipe, return process, video process, audio process,
socket, feed subscription. -/
theorem releaseTrace_sublist (rtsp : Bool) (s : ActiveSession) (f : StopFailures) :
    List.Sublist ((releaseTrace rtsp s f).filter isReleaseEv)
      canonicalReleaseOrder := by
  show List.Sublist _
    ((((([Ev.clearTimer] ++ [Ev.stopTalkback, Ev.unpipeReturn, Ev.stopReturnProc]) ++
      [Ev.stopVideoProc]) ++ [Ev.stopAudioProc]) ++ [Ev.closeSocket]) ++
      [Ev.releaseLivestream])
  rw [releaseTrace, List.filter_append, List.filter_append, List.filter_append,
    List.filter_append, List.filter_append]
  exact List.Sublist.append (List.Sublist.append (List.Sublist.append
    (List.Sublist.append (List.Sublist.append (timerSeg_sublist _)
      (stopReturnBlock_sublist _ _ _ _ _)) (stopVideoBlock_sublist _ _))
      (stopAudioBlock_sublist _ _)) (closeSocketBlock_sublist _ _))
    (releaseFeedBlock_sublist _ _)

theorem stopReturnProc_not_mem_timerSeg (tm : Bool) :
    Ev.stopReturnProc ∉ (if tm then [Ev.clearTimer] else []) := by
  revert tm; decide

theorem stopReturnProc_not_mem_videoBlock (a b : Bool) :
    Ev.stopReturnProc ∉ stopVideoBlock a b := by
  revert a b; decide

theorem stopReturnProc_not_mem_audioBlock (a b : Bool) :
    Ev.stopReturnProc ∉ stopAudioBlock a b := by
  revert a b; decide

theorem stopReturnProc_not_mem_socketBlock (a b : Bool) :
    Ev.stopReturnProc ∉ closeSocketBlock a b := by
  revert a b; decide

theorem stopReturnProc_not_mem_feedBlock (a b : Bool) :
    Ev.stopReturnProc ∉ releaseFeedBlock a b := by
  revert a b; decide

/-- Claim C7 counterexample: with a talkback session whose talkback-bridge
stop throws, the return-audio process is never stopped (and its pipe is never
detached) although later steps still run — the talkback stop, the unpipe and
the return-process stop share a single guard, so the steps are not
independently guarded as the claim states. -/
theorem C7_talkback_failure_skips_return_stop :
    Ev.stopReturnProc ∉ (stopStream true failTalkbackOnly activeOnlyState sid).2 ∧
    Ev.unpipeReturn ∉ (stopStream true failTalkbackOnly activeOnlyState sid).2 ∧
    Ev.stopVideoProc ∈ (stopStream true failTalkbackOnly activeOnlyState sid).2 := by
  refine ⟨?_, ?_, ?_⟩ <;> decide

/-- Claim C7 (amended): teardown performs its release steps in exactly the
stated order — cancel timer, stop talkback bridge, unpipe and stop the
return-audio process, stop the primary process, stop the audio process, close
the socket, release the local feed — and always completes with the registry
removal and the completion log; each failure is logged and swallowed; but the
talkback-bridge stop, the unpipe and the return-audio stop share one guard,
so a throwing talkback stop skips the return-audio stop. -/
theorem C7_teardown_order_and_completion (rtsp : Bool) (f : StopFailures)
    (st : DState) (id : String) (s : ActiveSession)
    (h : mapGet st.ongoingSessions id = some s) :
    List.Sublist ((stopStream rtsp f st id).2.filter isReleaseEv)
      canonicalReleaseOrder ∧
    (∃ body, (stopStream rtsp f st id).2 =
      body ++ [Ev.ongoingDelete id, Ev.logInfo msgStopped]) ∧
    (s.talkbackStream = true → f.talkbackThrows = true →
      Ev.stopReturnProc ∉ (stopStream rtsp f st id).2) ∧
    mapGet (stopStream rtsp f st id).1.ongoingSessions id = none := by
  by_cases hpp : (mapGet st.pendingSessions id).isSome
  · refine ⟨?_, ?_, ?_, ?_⟩
    · have hs := releaseTrace_sublist rtsp s f
      simpa [stopStream, h, hpp, List.filter_append, isReleaseEv] using hs
    · exact ⟨Ev.logDebug msgStopping :: Ev.pendingDelete id :: releaseTrace rtsp s f,
        by simp [stopStream, h, hpp]⟩
    · intro htb hft
      simp [stopStream, h, hpp, releaseTrace, htb, hft, stopReturnBlock,
        stopReturnProc_not_mem_timerSeg, stopReturnProc_not_mem_videoBlock,
        stopReturnProc_not_mem_audioBlock, stopReturnProc_not_mem_socketBlock,
        stopReturnProc_not_mem_feedBlock]
    · simp [stopStream, h, hpp, mapGet_delete_self]
  · refine ⟨?_, ?_, ?_, ?_⟩
    · have hs := releaseTrace_sublist rtsp s f
      simpa [stopStream, h, hpp, List.filter_append, isReleaseEv] using hs
    · exact ⟨Ev.logDebug msgStopping :: releaseTrace rtsp s f,
        by simp [stopStream, h, hpp]⟩
    · intro htb hft
      simp [stopStream, h, hpp, releaseTrace, htb, hft, stopReturnBlock,
        stopReturnProc_not_mem_timerSeg, stopReturnProc_not_mem_videoBlock,
        stopReturnProc_not_mem_audioBlock, stopReturnProc_not_mem_socketBlock,
        stopReturnProc_not_mem_feedBlock]
    · simp [stopStream, h, hpp, mapGet_delete_self]

/-- Claim C7 witness: the amended theorem applied to a registered full
session whose talkback stop throws. -/
theorem C7_teardown_order_and_completion_witness :
    mapGet activeOnlyState.ongoingSessions sid = some sessionFull ∧
    (List.Sublist ((stopStream true failTalkbackOnly activeOnlyState sid).2.filter
        isReleaseEv) canonicalReleaseOrder ∧
      (∃ body, (stopStream true failTalkbackOnly activeOnlyState sid).2 =
        body ++ [Ev.ongoingDelete sid, Ev.logInfo msgStopped]) ∧
      (sessionFull.talkbackStream = true → failTalkbackOnly.talkbackThrows = true →
        Ev.stopReturnProc ∉ (stopStream true failTalkbackOnly activeOnlyState sid).2) ∧
      mapGet (stopStream true failTalkbackOnly activeOnlyState sid).1.ongoingSessions
        sid = none) :=
  ⟨rfl, C7_teardown_order_and_completion true failTalkbackOnly activeOnlyState sid
    sessionFull rfl⟩

/-- Claim C8: teardown is idempotent.  After one `stopStream` for an
identifier, a second `stopStream` for the same identifier leaves the delegate
state unchanged and performs no resource-release action; and the supervisor's
`stop()` on an already-ended handle (null process reference) performs no
release action on the child — it only re-arms the grace timer, whose kill
shot also goes through the null-guarded reference. -/
theorem C8_stop_idempotent (rtsp : Bool) (f : StopFailures) (st : DState)
    (id : String) (s : FfmpegState) (h : s.processPresent = false) :
    (stopStream rtsp f (stopStream rtsp f st id).1 id).1 =
      (stopStream rtsp f st id).1 ∧
    (stopStream rtsp f (stopStream rtsp f st id).1 id).2.filter isReleaseEv = [] ∧
    (stopProcess s).2.filter isProcReleaseEv = [] ∧
    (stopProcess s).1 = { s with ffmpegTimeoutSet := true } := by
  obtain ⟨ft, he, his, hie, pp, pk, sb, sl, up⟩ := s
  simp only at h
  subst h
  have hafter : mapGet (stopStream rtsp f st id).1.pendingSessions id = none ∧
      mapGet (stopStream rtsp f st id).1.ongoingSessions id = none := by
    rcases hget : mapGet st.pendingSessions id with _ | v <;>
      rcases h2 : mapGet st.ongoingSessions id with _ | w <;>
        simp [stopStream, hget, h2, mapGet_delete_self]
  obtain ⟨hp1, ho1⟩ := hafter
  refine ⟨?_, ?_, ?_, ?_⟩
  · generalize hst1 : (stopStream rtsp f st id).1 = st1 at hp1 ho1
    simp [stopStream, hp1, ho1]
  · generalize hst1 : (stopStream rtsp f st id).1 = st1 at hp1 ho1
    simp [stopStream, hp1, ho1, isCbEv, isReleaseEv]
  · simp [stopProcess, isProcReleaseEv]
  · simp [stopProcess]

/-- The supervisor state of a handle that has already ended: the exit
listener ran, so the process reference is null. -/
def procEndedState : FfmpegState :=
  { ffmpegTimeoutSet := true, hasError := false, isStarted := false, isEnded := true,
    processPresent := false, processKilled := true, stderrBuffer := "",
    stderrLog := [], usesStdinPipe := false }

/-- Claim C8 witness: a double `stopStream` on the empty delegate and a
`stop()` on an already-ended handle. -/
theorem C8_stop_idempotent_witness :
    procEndedState.processPresent = false ∧
    ((stopStream true noFailures (stopStream true noFailures emptyState sid).1 sid).1 =
        (stopStream true noFailures emptyState sid).1 ∧
      (stopStream true noFailures (stopStream true noFailures emptyState sid).1
        sid).2.filter isReleaseEv = [] ∧
      (stopProcess procEndedState).2.filter isProcReleaseEv = [] ∧
      (stopProcess procEndedState).1 =
        { procEndedState with ffmpegTimeoutSet := true }) :=
  ⟨rfl, C8_stop_idempotent true noFailures emptyState sid procEndedState rfl⟩

theorem getLast_cons_append_singleton {α : Type} (x : α) (l : List α) (a : α) :
    (x :: (l ++ [a])).getLast? = some a := by
  rw [← List.cons_append]
  exact List.getLast?_concat _

theorem stopStream_no_cb (rtsp : Bool) (f : StopFailures) (st : DState)
    (id : String) : (stopStream rtsp f st id).2.filter isCbEv = [] := by
  rcases hget : mapGet st.pendingSessions id with _ | v <;>
    rcases h2 : mapGet st.ongoingSessions id with _ | w <;>
      simp [stopStream, hget, h2, List.filter_append, releaseTrace_filter_cb,
        isCbEv]

/-- Claim C10: a STOP stream request is always acknowledged exactly once:
`handleStreamRequest` with request type STOP first runs `stopStream` for the
identifier (which never invokes the request callback itself) and then invokes
the callback, as the final action, on every state — including when no pending
or active session exists for the identifier. -/
theorem C10_stop_request_acknowledged_once (env : StartEnv) (req : StartRequest)
    (st : DState) :
    countCb (handleStreamRequest env StreamRequestType.stop req st).2 = 1 ∧
    (handleStreamRequest env StreamRequestType.stop req st).2.getLast? =
      some Ev.cbOk := by
  constructor
  · have hnocb := stopStream_no_cb env.rtsp env.stopFailures st req.sessionID
    simp [handleStreamRequest, countCb, List.filter_append, hnocb, isCbEv]
  · exact getLast_cons_append_singleton _ _ _
